import Mathlib

/-!
Shallow embedding of the golog leveled-logging package.

The repository carries two evolutionary variants of the same design:
`golog.go` — free emit functions `SLog`/`STrace`/…/`EPanic` over the
process-wide registry — and a later revision with per-sink handle objects
`Std`/`Err` and an added `Notice` level.  The first is embedded in
namespace `golog1`, the second in `golog2`.  External collaborators — the
wall clock, call-site resolution and `fmt.Sprintf` — enter as oracle
inputs: an `Env` carries the formatted date and the resolved
(file basename, line) of the call site, and emit operations receive the
already-formatted message text.  A sink is modelled as the list of strings
handed to its `Write` calls; a façade call's outcome records those writes,
the `os.Exit` argument when the call exits, a `log.Panic`, or a
nil-pointer dereference.
-/

namespace golog

/-- Attribute set handed to `color.New` at each return of `Level.Color`,
plus cyan for `color.CyanString` in `getCaller`. -/
inductive ColorSpec where
  | fgWhite
  | fgBlue
  | fgGreen
  | fgMagenta
  | fgYellow
  | fgRed
  | fgCyan
  | fgHiWhiteBgRed
  deriving DecidableEq

/-- ANSI escape prefix the `fatih/color` library emits for the attribute set. -/
def colorCode : ColorSpec → String
  | .fgWhite => "\x1b[37m"
  | .fgBlue => "\x1b[34m"
  | .fgGreen => "\x1b[32m"
  | .fgMagenta => "\x1b[35m"
  | .fgYellow => "\x1b[33m"
  | .fgRed => "\x1b[31m"
  | .fgCyan => "\x1b[36m"
  | .fgHiWhiteBgRed => "\x1b[97;41m"

/-- Model of the `SprintFunc` built by `color.New(attrs)` applied to one
string: the text wrapped in the attribute escape and a reset. -/
def applyColor (c : ColorSpec) (s : String) : String :=
  colorCode c ++ s ++ "\x1b[0m"

/-- Oracle inputs of one emit call: the string `getDate` formats from the
wall clock, and the outcome of `runtime.Caller(4)` (`none` models
`ok == false`; otherwise the source file's basename, as `filepath.Base`
yields it, and the line number). -/
structure Env where
  date : String
  caller : Option (String × Nat)
  deriving DecidableEq

/-- Message of the `log.Panic` in `getStdLogger` and `getErrLogger`. -/
def notInitMsg : String :=
  "The logger object is not initialized. Please call SetupLogger()."

/-- Argument of the `os.Exit(-1)` call made by the Panic-severity emitters. -/
def exitFailure : Int := -1

/-- Outcome of one façade emit call: the `Write` calls made to the sink
plus the `os.Exit` argument when the call exits, a `log.Panic`, or a
nil-pointer dereference panic. -/
inductive Outcome where
  | ok (writes : List String) (exit : Option Int)
  | panicked (msg : String)
  | nilDeref
  deriving DecidableEq

/-- Total characters passed to the sink across the listed `Write` calls. -/
def sinkBytes (writes : List String) : Nat :=
  (writes.map String.length).sum

end golog

/-! ## Variant 1: `golog.go` (free functions, no Notice level) -/

namespace golog1

open golog

/-- `type Level uint8`; values embedded as naturals. -/
abbrev Level := Nat

def unknown : Level := 0
def LTrace : Level := 1
def LDebug : Level := 2
def LInfo : Level := 3
def LWarning : Level := 4
def LError : Level := 5
def LPanic : Level := 6

/-- `Level.Color` of `golog.go`: the attribute set chosen by its switch
(the function it returns is `applyColor` of that set). -/
def Color (level : Level) : ColorSpec :=
  if level = LTrace then .fgMagenta
  else if level = LDebug then .fgBlue
  else if level = LInfo then .fgGreen
  else if level = LWarning then .fgYellow
  else if level = LError then .fgRed
  else if level = LPanic then .fgHiWhiteBgRed
  else .fgWhite

/-- `Level.String` of `golog.go`. -/
def levelString (level : Level) : String :=
  if level = LTrace then "trace"
  else if level = LDebug then "debug"
  else if level = LInfo then " info"
  else if level = LWarning then " warn"
  else if level = LError then "error"
  else if level = LPanic then "panic"
  else "unknown"

structure GoLogOption where
  Colorize : Bool
  MinLevel : Level
  deriving DecidableEq

/-- `type GoLog struct`: the configuration fields.  `Header` is not a
field here because `register` always installs the one fixed default
template, whose rendering `getHeader` below performs; `out` is the sink
(identified by the writes list the emit path returns) and `mu` the lock
(no interleaving is modelled). -/
structure GoLog where
  MinLevel : Level
  DefaultLevel : Level
  Colorize : Bool
  UserHeader : String
  deriving DecidableEq

/-- `func NewGoLog`. -/
def NewGoLog (option : GoLogOption) : GoLog :=
  { Colorize := option.Colorize
    MinLevel := option.MinLevel
    DefaultLevel := LInfo
    UserHeader := "" }

/-- The process-wide registry pointers `glstd` and `glerr`
(`none` models a nil pointer). -/
structure Registry where
  glstd : Option GoLog
  glerr : Option GoLog
  deriving DecidableEq

/-- The option `SetupLogger` proceeds with: its argument, or the default
when the argument is nil. -/
def resolveOption (option : Option GoLogOption) : GoLogOption :=
  match option with
  | none => { Colorize := true, MinLevel := LDebug }
  | some o => o

/-- `func SetupLogger`: constructs the two instances and stores them. -/
def SetupLogger (option : Option GoLogOption) : Registry :=
  { glstd := some (NewGoLog (resolveOption option))
    glerr := some (NewGoLog (resolveOption option)) }

def SetUserHeader (gl : GoLog) (header : String) : GoLog :=
  { gl with UserHeader := header }

def SetMinLevel (gl : GoLog) (level : Level) : GoLog :=
  { gl with MinLevel := level }

def SetDefaultLevel (gl : GoLog) (level : Level) : GoLog :=
  { gl with DefaultLevel := level }

def SetColorize (gl : GoLog) (colorize : Bool) : GoLog :=
  { gl with Colorize := colorize }

/-- `func (gl *GoLog) write`: the `Write` calls made to `gl.out`. -/
def write (gl : GoLog) (text : String) (level : Level) : List String :=
  if level ≥ gl.MinLevel then [text ++ "\n"] else []

/-- `func getCaller`. -/
def getCaller (logger : GoLog) (env : Env) : String :=
  match env.caller with
  | none => "unknown"
  | some (file, line) =>
    if logger.Colorize then applyColor .fgCyan (file ++ ":" ++ toString line)
    else file ++ ":" ++ toString line

/-- `func getHeader`: the user header verbatim when non-empty, otherwise
the fixed default template rendered with level text, date and caller. -/
def getHeader (logger : GoLog) (level : Level) (env : Env) : String :=
  if logger.UserHeader ≠ "" then logger.UserHeader
  else
    let levelStr :=
      if logger.Colorize then applyColor (Color level) (levelString level)
      else levelString level
    "[" ++ levelStr ++ "] " ++ env.date ++ " (" ++ getCaller logger env ++ "): "

/-- `func getFormattedText`. -/
def getFormattedText (text : String) (logger : GoLog) (level : Level) (env : Env) :
    String × Level :=
  (getHeader logger level env ++ text, level)

/-- One emit through an instance: `gl.write(getFormattedText(msg, gl, level))`. -/
def emit (gl : GoLog) (level : Level) (msg : String) (env : Env) : List String :=
  let p := getFormattedText msg gl level env
  write gl p.1 p.2

/-- `func getStdLogger`. -/
def getStdLogger (reg : Registry) : Except String GoLog :=
  match reg.glstd with
  | none => .error notInitMsg
  | some gl => .ok gl

/-- `func getErrLogger`: its nil check inspects `glstd`, and the returned
`glerr` pointer may itself be nil. -/
def getErrLogger (reg : Registry) : Except String (Option GoLog) :=
  match reg.glstd with
  | none => .error notInitMsg
  | some _ => .ok reg.glerr

def SLog (reg : Registry) (msg : String) (env : Env) : Outcome :=
  match getStdLogger reg with
  | .error m => .panicked m
  | .ok logger => .ok (emit logger logger.DefaultLevel msg env) none

def STrace (reg : Registry) (msg : String) (env : Env) : Outcome :=
  match getStdLogger reg with
  | .error m => .panicked m
  | .ok logger => .ok (emit logger LTrace msg env) none

def SDebug (reg : Registry) (msg : String) (env : Env) : Outcome :=
  match getStdLogger reg with
  | .error m => .panicked m
  | .ok logger => .ok (emit logger LDebug msg env) none

def SInfo (reg : Registry) (msg : String) (env : Env) : Outcome :=
  match getStdLogger reg with
  | .error m => .panicked m
  | .ok logger => .ok (emit logger LInfo msg env) none

def SWarn (reg : Registry) (msg : String) (env : Env) : Outcome :=
  match getStdLogger reg with
  | .error m => .panicked m
  | .ok logger => .ok (emit logger LWarning msg env) none

def SError (reg : Registry) (msg : String) (env : Env) : Outcome :=
  match getStdLogger reg with
  | .error m => .panicked m
  | .ok logger => .ok (emit logger LError msg env) none

def SPanic (reg : Registry) (msg : String) (env : Env) : Outcome :=
  match getStdLogger reg with
  | .error m => .panicked m
  | .ok logger => .ok (emit logger LPanic msg env) (some exitFailure)

def ELog (reg : Registry) (msg : String) (env : Env) : Outcome :=
  match getErrLogger reg with
  | .error m => .panicked m
  | .ok none => .nilDeref
  | .ok (some logger) => .ok (emit logger logger.DefaultLevel msg env) none

def ETrace (reg : Registry) (msg : String) (env : Env) : Outcome :=
  match getErrLogger reg with
  | .error m => .panicked m
  | .ok none => .nilDeref
  | .ok (some logger) => .ok (emit logger LTrace msg env) none

def EDebug (reg : Registry) (msg : String) (env : Env) : Outcome :=
  match getErrLogger reg with
  | .error m => .panicked m
  | .ok none => .nilDeref
  | .ok (some logger) => .ok (emit logger LDebug msg env) none

def EInfo (reg : Registry) (msg : String) (env : Env) : Outcome :=
  match getErrLogger reg with
  | .error m => .panicked m
  | .ok none => .nilDeref
  | .ok (some logger) => .ok (emit logger LInfo msg env) none

def EWarn (reg : Registry) (msg : String) (env : Env) : Outcome :=
  match getErrLogger reg with
  | .error m => .panicked m
  | .ok none => .nilDeref
  | .ok (some logger) => .ok (emit logger LWarning msg env) none

def EError (reg : Registry) (msg : String) (env : Env) : Outcome :=
  match getErrLogger reg with
  | .error m => .panicked m
  | .ok none => .nilDeref
  | .ok (some logger) => .ok (emit logger LError msg env) none

def EPanic (reg : Registry) (msg : String) (env : Env) : Outcome :=
  match getErrLogger reg with
  | .error m => .panicked m
  | .ok none => .nilDeref
  | .ok (some logger) => .ok (emit logger LPanic msg env) (some exitFailure)

end golog1

/-! ## Variant 2: the later revision (handle objects `Std`/`Err`, Notice level) -/

namespace golog2

open golog

/-- `type Level uint8`; values embedded as naturals. -/
abbrev Level := Nat

def unknown : Level := 0
def LTrace : Level := 1
def LDebug : Level := 2
def LInfo : Level := 3
def LNotice : Level := 4
def LWarning : Level := 5
def LError : Level := 6
def LPanic : Level := 7

/-- `Level.Color` of the later revision. -/
def Color (level : Level) : ColorSpec :=
  if level = LTrace then .fgWhite
  else if level = LDebug then .fgBlue
  else if level = LInfo then .fgGreen
  else if level = LNotice then .fgMagenta
  else if level = LWarning then .fgYellow
  else if level = LError then .fgRed
  else if level = LPanic then .fgHiWhiteBgRed
  else .fgWhite

/-- `Level.String` of the later revision (6-character padded labels). -/
def levelString (level : Level) : String :=
  if level = LTrace then " trace"
  else if level = LDebug then " debug"
  else if level = LInfo then "  info"
  else if level = LNotice then "notice"
  else if level = LWarning then "  warn"
  else if level = LError then " error"
  else if level = LPanic then " panic"
  else "unknown"

structure GoLogOption where
  Colorize : Bool
  MinLevel : Level
  deriving DecidableEq

/-- `type GoLog struct` of the later revision (same fields; `Header`,
`out`, `mu` modelled as in `golog1.GoLog`). -/
structure GoLog where
  MinLevel : Level
  DefaultLevel : Level
  Colorize : Bool
  UserHeader : String
  deriving DecidableEq

/-- `func NewGoLog`. -/
def NewGoLog (option : GoLogOption) : GoLog :=
  { Colorize := option.Colorize
    MinLevel := option.MinLevel
    DefaultLevel := LInfo
    UserHeader := "" }

/-- The process-wide registry pointers `glstd` and `glerr`
(`none` models a nil pointer). -/
structure Registry where
  glstd : Option GoLog
  glerr : Option GoLog
  deriving DecidableEq

/-- Per-sink handle `StdOutput`, published as `Std` by `SetupLogger`. -/
structure StdOutput where
  logger : GoLog
  deriving DecidableEq

/-- Per-sink handle `ErrOutput`, published as `Err` by `SetupLogger`. -/
structure ErrOutput where
  logger : GoLog
  deriving DecidableEq

/-- The option `SetupLogger` proceeds with: its argument, or the default
when the argument is nil. -/
def resolveOption (option : Option GoLogOption) : GoLogOption :=
  match option with
  | none => { Colorize := true, MinLevel := LDebug }
  | some o => o

/-- `func SetupLogger` of the later revision: the registry it stores plus
the two handles it publishes (`Std`, `Err`), each bound to the instance
just constructed for its sink. -/
def SetupLogger (option : Option GoLogOption) : Registry × StdOutput × ErrOutput :=
  let gs := NewGoLog (resolveOption option)
  let ge := NewGoLog (resolveOption option)
  ({ glstd := some gs, glerr := some ge }, { logger := gs }, { logger := ge })

def SetUserHeader (gl : GoLog) (header : String) : GoLog :=
  { gl with UserHeader := header }

def SetMinLevel (gl : GoLog) (level : Level) : GoLog :=
  { gl with MinLevel := level }

def SetDefaultLevel (gl : GoLog) (level : Level) : GoLog :=
  { gl with DefaultLevel := level }

def SetColorize (gl : GoLog) (colorize : Bool) : GoLog :=
  { gl with Colorize := colorize }

/-- `func (gl *GoLog) write`: the `Write` calls made to `gl.out`. -/
def write (gl : GoLog) (text : String) (level : Level) : List String :=
  if level ≥ gl.MinLevel then [text ++ "\n"] else []

/-- `func getCaller`. -/
def getCaller (logger : GoLog) (env : Env) : String :=
  match env.caller with
  | none => "unknown"
  | some (file, line) =>
    if logger.Colorize then applyColor .fgCyan (file ++ ":" ++ toString line)
    else file ++ ":" ++ toString line

/-- `func getHeader`: the user header verbatim when non-empty, otherwise
the fixed default template rendered with level text, date and caller. -/
def getHeader (logger : GoLog) (level : Level) (env : Env) : String :=
  if logger.UserHeader ≠ "" then logger.UserHeader
  else
    let levelStr :=
      if logger.Colorize then applyColor (Color level) (levelString level)
      else levelString level
    "[" ++ levelStr ++ "] " ++ env.date ++ " (" ++ getCaller logger env ++ "): "

/-- `func getFormattedText`. -/
def getFormattedText (text : String) (logger : GoLog) (level : Level) (env : Env) :
    String × Level :=
  (getHeader logger level env ++ text, level)

/-- One emit through an instance: `gl.write(getFormattedText(msg, gl, level))`. -/
def emit (gl : GoLog) (level : Level) (msg : String) (env : Env) : List String :=
  let p := getFormattedText msg gl level env
  write gl p.1 p.2

/-- `func getStdLogger`. -/
def getStdLogger (reg : Registry) : Except String GoLog :=
  match reg.glstd with
  | none => .error notInitMsg
  | some gl => .ok gl

/-- `func getErrLogger`: its nil check inspects `glstd`, and the returned
`glerr` pointer may itself be nil. -/
def getErrLogger (reg : Registry) : Except String (Option GoLog) :=
  match reg.glstd with
  | none => .error notInitMsg
  | some _ => .ok reg.glerr

def StdOutput.Log (o : StdOutput) (msg : String) (env : Env) : Outcome :=
  .ok (emit o.logger o.logger.DefaultLevel msg env) none

def StdOutput.Trace (o : StdOutput) (msg : String) (env : Env) : Outcome :=
  .ok (emit o.logger LTrace msg env) none

def StdOutput.Debug (o : StdOutput) (msg : String) (env : Env) : Outcome :=
  .ok (emit o.logger LDebug msg env) none

def StdOutput.Info (o : StdOutput) (msg : String) (env : Env) : Outcome :=
  .ok (emit o.logger LInfo msg env) none

def StdOutput.Notice (o : StdOutput) (msg : String) (env : Env) : Outcome :=
  .ok (emit o.logger LNotice msg env) none

def StdOutput.Warn (o : StdOutput) (msg : String) (env : Env) : Outcome :=
  .ok (emit o.logger LWarning msg env) none

def StdOutput.Error (o : StdOutput) (msg : String) (env : Env) : Outcome :=
  .ok (emit o.logger LError msg env) none

def StdOutput.Panic (o : StdOutput) (msg : String) (env : Env) : Outcome :=
  .ok (emit o.logger LPanic msg env) (some exitFailure)

def ErrOutput.Log (o : ErrOutput) (msg : String) (env : Env) : Outcome :=
  .ok (emit o.logger o.logger.DefaultLevel msg env) none

def ErrOutput.Trace (o : ErrOutput) (msg : String) (env : Env) : Outcome :=
  .ok (emit o.logger LTrace msg env) none

def ErrOutput.Debug (o : ErrOutput) (msg : String) (env : Env) : Outcome :=
  .ok (emit o.logger LDebug msg env) none

def ErrOutput.Info (o : ErrOutput) (msg : String) (env : Env) : Outcome :=
  .ok (emit o.logger LInfo msg env) none

def ErrOutput.Notice (o : ErrOutput) (msg : String) (env : Env) : Outcome :=
  .ok (emit o.logger LNotice msg env) none

def ErrOutput.Warn (o : ErrOutput) (msg : String) (env : Env) : Outcome :=
  .ok (emit o.logger LWarning msg env) none

def ErrOutput.Error (o : ErrOutput) (msg : String) (env : Env) : Outcome :=
  .ok (emit o.logger LError msg env) none

def ErrOutput.Panic (o : ErrOutput) (msg : String) (env : Env) : Outcome :=
  .ok (emit o.logger LPanic msg env) (some exitFailure)

end golog2

/-! ## Claims -/

/-- C1: an emit at severity `level` against an instance with minimum level
`MinLevel` makes a `Write` call to the sink iff `level ≥ MinLevel` (and then
exactly one); when `level < MinLevel` zero bytes reach the sink.  Holds in
both variants. -/
theorem C1_emit_filters_by_min_level :
    (∀ (gl : golog1.GoLog) (level : golog1.Level) (msg : String) (env : golog.Env),
      (golog1.emit gl level msg env ≠ [] ↔ level ≥ gl.MinLevel) ∧
      (level ≥ gl.MinLevel → (golog1.emit gl level msg env).length = 1) ∧
      (level < gl.MinLevel → golog.sinkBytes (golog1.emit gl level msg env) = 0)) ∧
    (∀ (gl : golog2.GoLog) (level : golog2.Level) (msg : String) (env : golog.Env),
      (golog2.emit gl level msg env ≠ [] ↔ level ≥ gl.MinLevel) ∧
      (level ≥ gl.MinLevel → (golog2.emit gl level msg env).length = 1) ∧
      (level < gl.MinLevel → golog.sinkBytes (golog2.emit gl level msg env) = 0)) := by
  constructor
  · intro gl level msg env
    by_cases h : level ≥ gl.MinLevel
    · simp [golog1.emit, golog1.write, golog1.getFormattedText, h]
    · simp [golog1.emit, golog1.write, golog1.getFormattedText, h, golog.sinkBytes]
  · intro gl level msg env
    by_cases h : level ≥ gl.MinLevel
    · simp [golog2.emit, golog2.write, golog2.getFormattedText, h]
    · simp [golog2.emit, golog2.write, golog2.getFormattedText, h, golog.sinkBytes]

/-- C1 witness: at minimum level Info (3), a Debug (2) emit writes nothing
and an Info (3) emit writes. -/
theorem C1_emit_filters_by_min_level_witness :
    golog1.emit ⟨3, 3, false, ""⟩ 2 "x" ⟨"d", none⟩ = [] ∧
    golog2.emit ⟨3, 3, false, ""⟩ 3 "y" ⟨"d", none⟩ ≠ [] := by
  have h1 := (C1_emit_filters_by_min_level.1 ⟨3, 3, false, ""⟩ 2 "x" ⟨"d", none⟩).1
  have h2 := (C1_emit_filters_by_min_level.2 ⟨3, 3, false, ""⟩ 3 "y" ⟨"d", none⟩).1
  refine ⟨?_, h2.mpr (by decide)⟩
  by_contra hne
  exact absurd (h1.mp hne) (by decide)

/-- C2: an emit that passes the level filter makes exactly one `Write`
call, whose content is the rendered header prefix, then the formatted
message verbatim, then exactly one trailing newline.  Holds in both
variants; the `fmt.Sprintf` step is the oracle producing `msg`. -/
theorem C2_single_write_header_message_newline :
    (∀ (gl : golog1.GoLog) (level : golog1.Level) (msg : String) (env : golog.Env),
      level ≥ gl.MinLevel →
      golog1.emit gl level msg env = [golog1.getHeader gl level env ++ msg ++ "\n"]) ∧
    (∀ (gl : golog2.GoLog) (level : golog2.Level) (msg : String) (env : golog.Env),
      level ≥ gl.MinLevel →
      golog2.emit gl level msg env = [golog2.getHeader gl level env ++ msg ++ "\n"]) := by
  constructor
  · intro gl level msg env h
    simp [golog1.emit, golog1.write, golog1.getFormattedText, h]
  · intro gl level msg env h
    simp [golog2.emit, golog2.write, golog2.getFormattedText, h]

/-- C2 witness: a concrete Error-level emit is the single write
header + "fail 3" + newline. -/
theorem C2_single_write_header_message_newline_witness :
    golog2.emit ⟨1, 3, false, ""⟩ 6 "fail 3" ⟨"2024-01-02 03:04:05", some ("a.go", 12)⟩ =
      [golog2.getHeader ⟨1, 3, false, ""⟩ 6 ⟨"2024-01-02 03:04:05", some ("a.go", 12)⟩ ++
        "fail 3" ++ "\n"] :=
  C2_single_write_header_message_newline.2 ⟨1, 3, false, ""⟩ 6 "fail 3"
    ⟨"2024-01-02 03:04:05", some ("a.go", 12)⟩ (by decide)

/-- C3: with the registry pointers still nil (no setup call yet), every
free emit operation panics with the not-initialized diagnostic — not a
silent no-op, not an error return — and in the later revision both logger
lookups fault the same way. -/
theorem C3_emit_before_setup_panics :
    (∀ (ge : Option golog1.GoLog) (msg : String) (env : golog.Env),
      golog1.SLog ⟨none, ge⟩ msg env = .panicked golog.notInitMsg ∧
      golog1.STrace ⟨none, ge⟩ msg env = .panicked golog.notInitMsg ∧
      golog1.SDebug ⟨none, ge⟩ msg env = .panicked golog.notInitMsg ∧
      golog1.SInfo ⟨none, ge⟩ msg env = .panicked golog.notInitMsg ∧
      golog1.SWarn ⟨none, ge⟩ msg env = .panicked golog.notInitMsg ∧
      golog1.SError ⟨none, ge⟩ msg env = .panicked golog.notInitMsg ∧
      golog1.SPanic ⟨none, ge⟩ msg env = .panicked golog.notInitMsg ∧
      golog1.ELog ⟨none, ge⟩ msg env = .panicked golog.notInitMsg ∧
      golog1.ETrace ⟨none, ge⟩ msg env = .panicked golog.notInitMsg ∧
      golog1.EDebug ⟨none, ge⟩ msg env = .panicked golog.notInitMsg ∧
      golog1.EInfo ⟨none, ge⟩ msg env = .panicked golog.notInitMsg ∧
      golog1.EWarn ⟨none, ge⟩ msg env = .panicked golog.notInitMsg ∧
      golog1.EError ⟨none, ge⟩ msg env = .panicked golog.notInitMsg ∧
      golog1.EPanic ⟨none, ge⟩ msg env = .panicked golog.notInitMsg) ∧
    (∀ ge : Option golog2.GoLog,
      golog2.getStdLogger ⟨none, ge⟩ = .error golog.notInitMsg ∧
      golog2.getErrLogger ⟨none, ge⟩ = .error golog.notInitMsg) :=
  ⟨fun _ _ _ =>
    ⟨rfl, rfl, rfl, rfl, rfl, rfl, rfl, rfl, rfl, rfl, rfl, rfl, rfl, rfl⟩,
   fun _ => ⟨rfl, rfl⟩⟩

/-- C4: every Panic-severity emit operation — `SPanic`/`EPanic` on an
initialized registry, and the handle methods `Std.Panic`/`Err.Panic` —
performs its write step and then calls `os.Exit` with the fixed status
`-1`, for every instance configuration (any colorize flag, any header
override, any minimum level) — and that status is non-zero. -/
theorem C4_panic_severity_exits_nonzero :
    (∀ (gs ge : golog1.GoLog) (msg : String) (env : golog.Env),
      golog1.SPanic ⟨some gs, some ge⟩ msg env =
        .ok (golog1.emit gs golog1.LPanic msg env) (some golog.exitFailure) ∧
      golog1.EPanic ⟨some gs, some ge⟩ msg env =
        .ok (golog1.emit ge golog1.LPanic msg env) (some golog.exitFailure)) ∧
    (∀ (gl : golog2.GoLog) (msg : String) (env : golog.Env),
      golog2.StdOutput.Panic ⟨gl⟩ msg env =
        .ok (golog2.emit gl golog2.LPanic msg env) (some golog.exitFailure) ∧
      golog2.ErrOutput.Panic ⟨gl⟩ msg env =
        .ok (golog2.emit gl golog2.LPanic msg env) (some golog.exitFailure)) ∧
    golog.exitFailure ≠ 0 :=
  ⟨fun _ _ _ _ => ⟨rfl, rfl⟩, fun _ _ _ => ⟨rfl, rfl⟩, by decide⟩

/-- C5: whenever the header override string is non-empty, the rendered
header is that string verbatim — for every severity, every colorize
setting, every date and caller — and an emit passing the filter writes
exactly override + message + newline; in both variants.  `SetUserHeader`
replaces the override. -/
theorem C5_user_header_replaces_computed_header :
    (∀ (gl : golog1.GoLog) (level : golog1.Level) (env : golog.Env),
      gl.UserHeader ≠ "" → golog1.getHeader gl level env = gl.UserHeader) ∧
    (∀ (gl : golog1.GoLog) (level : golog1.Level) (msg : String) (env : golog.Env),
      gl.UserHeader ≠ "" → level ≥ gl.MinLevel →
      golog1.emit gl level msg env = [gl.UserHeader ++ msg ++ "\n"]) ∧
    (∀ (gl : golog2.GoLog) (level : golog2.Level) (env : golog.Env),
      gl.UserHeader ≠ "" → golog2.getHeader gl level env = gl.UserHeader) ∧
    (∀ (gl : golog2.GoLog) (level : golog2.Level) (msg : String) (env : golog.Env),
      gl.UserHeader ≠ "" → level ≥ gl.MinLevel →
      golog2.emit gl level msg env = [gl.UserHeader ++ msg ++ "\n"]) ∧
    (∀ (gl : golog1.GoLog) (s : String), (golog1.SetUserHeader gl s).UserHeader = s) ∧
    (∀ (gl : golog2.GoLog) (s : String), (golog2.SetUserHeader gl s).UserHeader = s) := by
  refine ⟨fun gl level env h => ?_, fun gl level msg env h hlv => ?_,
    fun gl level env h => ?_, fun gl level msg env h hlv => ?_,
    fun _ _ => rfl, fun _ _ => rfl⟩
  · simp [golog1.getHeader, h]
  · simp [golog1.emit, golog1.write, golog1.getFormattedText, golog1.getHeader, h, hlv]
  · simp [golog2.getHeader, h]
  · simp [golog2.emit, golog2.write, golog2.getFormattedText, golog2.getHeader, h, hlv]

/-- C5 witness: with override "HDR" set, a colorized Error-level header is
"HDR" itself, and the emitted line is "HDR" + message + newline. -/
theorem C5_user_header_replaces_computed_header_witness :
    golog1.getHeader ⟨1, 3, true, "HDR"⟩ 5 ⟨"d", some ("a.go", 3)⟩ = "HDR" ∧
    golog2.emit ⟨1, 3, true, "HDR"⟩ 6 "m" ⟨"d", some ("a.go", 3)⟩ = ["HDR" ++ "m" ++ "\n"] :=
  ⟨C5_user_header_replaces_computed_header.1 ⟨1, 3, true, "HDR"⟩ 5
      ⟨"d", some ("a.go", 3)⟩ (by decide),
   (C5_user_header_replaces_computed_header.2.2.2.1) ⟨1, 3, true, "HDR"⟩ 6 "m"
      ⟨"d", some ("a.go", 3)⟩ (by decide) (by decide)⟩

/-- C9: the initialization guard of the error-sink path inspects only
`glstd`: with `glstd` nil the lookup (and the emit built on it) panics with
the not-initialized diagnostic, and with `glstd` set the lookup returns the
`glerr` pointer unchecked — in particular a nil `glerr` is returned as-is,
and the emit then dereferences it. -/
theorem C9_err_guard_inspects_std_pointer :
    (∀ (gl : golog1.GoLog) (ge : Option golog1.GoLog),
      golog1.getErrLogger ⟨some gl, ge⟩ = .ok ge) ∧
    (∀ ge : Option golog1.GoLog,
      golog1.getErrLogger ⟨none, ge⟩ = .error golog.notInitMsg) ∧
    (∀ (gl : golog1.GoLog) (msg : String) (env : golog.Env),
      golog1.ELog ⟨some gl, none⟩ msg env = .nilDeref) ∧
    (∀ (ge : Option golog1.GoLog) (msg : String) (env : golog.Env),
      golog1.ELog ⟨none, ge⟩ msg env = .panicked golog.notInitMsg) ∧
    (∀ (gl : golog2.GoLog) (ge : Option golog2.GoLog),
      golog2.getErrLogger ⟨some gl, ge⟩ = .ok ge) ∧
    (∀ ge : Option golog2.GoLog,
      golog2.getErrLogger ⟨none, ge⟩ = .error golog.notInitMsg) :=
  ⟨fun _ _ => rfl, fun _ => rfl, fun _ _ _ => rfl, fun _ _ _ => rfl,
   fun _ _ => rfl, fun _ => rfl⟩

/-- C10: every construction path sets the new instance's default level to
Info — the setup option (nil or not) never influences it — and the
default-level emits (`SLog`/`ELog`, `Std.Log`/`Err.Log`) emit at the
instance's `DefaultLevel`, which `SetDefaultLevel` alone changes. -/
theorem C10_fresh_default_level_is_info :
    (∀ opt : golog1.GoLogOption, (golog1.NewGoLog opt).DefaultLevel = golog1.LInfo) ∧
    (∀ o : Option golog1.GoLogOption,
      (golog1.SetupLogger o).glstd = some (golog1.NewGoLog (golog1.resolveOption o)) ∧
      (golog1.SetupLogger o).glerr = some (golog1.NewGoLog (golog1.resolveOption o))) ∧
    (∀ (o : Option golog1.GoLogOption) (msg : String) (env : golog.Env),
      golog1.SLog (golog1.SetupLogger o) msg env =
        .ok (golog1.emit (golog1.NewGoLog (golog1.resolveOption o)) golog1.LInfo msg env)
          none ∧
      golog1.ELog (golog1.SetupLogger o) msg env =
        .ok (golog1.emit (golog1.NewGoLog (golog1.resolveOption o)) golog1.LInfo msg env)
          none) ∧
    (∀ (gl : golog1.GoLog) (ge : Option golog1.GoLog) (msg : String) (env : golog.Env),
      golog1.SLog ⟨some gl, ge⟩ msg env =
        .ok (golog1.emit gl gl.DefaultLevel msg env) none) ∧
    (∀ opt : golog2.GoLogOption, (golog2.NewGoLog opt).DefaultLevel = golog2.LInfo) ∧
    (∀ (o : Option golog2.GoLogOption) (msg : String) (env : golog.Env),
      golog2.StdOutput.Log (golog2.SetupLogger o).2.1 msg env =
        .ok (golog2.emit (golog2.NewGoLog (golog2.resolveOption o)) golog2.LInfo msg env)
          none ∧
      golog2.ErrOutput.Log (golog2.SetupLogger o).2.2 msg env =
        .ok (golog2.emit (golog2.NewGoLog (golog2.resolveOption o)) golog2.LInfo msg env)
          none) ∧
    (∀ (gl : golog2.GoLog) (msg : String) (env : golog.Env),
      golog2.StdOutput.Log ⟨gl⟩ msg env =
        .ok (golog2.emit gl gl.DefaultLevel msg env) none ∧
      golog2.ErrOutput.Log ⟨gl⟩ msg env =
        .ok (golog2.emit gl gl.DefaultLevel msg env) none) ∧
    (∀ (gl : golog1.GoLog) (level : golog1.Level),
      (golog1.SetDefaultLevel gl level).DefaultLevel = level) ∧
    (∀ (gl : golog2.GoLog) (level : golog2.Level),
      (golog2.SetDefaultLevel gl level).DefaultLevel = level) :=
  ⟨fun _ => rfl, fun _ => ⟨rfl, rfl⟩, fun _ _ _ => ⟨rfl, rfl⟩, fun _ _ _ _ => rfl,
   fun _ => rfl, fun _ _ _ => ⟨rfl, rfl⟩, fun _ _ _ => ⟨rfl, rfl⟩,
   fun _ _ => rfl, fun _ _ => rfl⟩

/-- C6 counterexample: in the `golog.go` variant, a concrete emitted line
(colorize off, no override) carries the level label "trace", which is 5
characters wide, not 6. -/
theorem C6_counterexample_five_char_label :
    golog1.emit ⟨1, 3, false, ""⟩ golog1.LTrace "m"
        ⟨"2024-01-01 00:00:00", some ("main.go", 7)⟩ =
      ["[trace] 2024-01-01 00:00:00 (main.go:7): m\n"] ∧
    (golog1.levelString golog1.LTrace).length = 5 ∧
    ¬ (golog1.levelString golog1.LTrace).length = 6 := by
  refine ⟨by decide, by decide, by decide⟩

/-- C6 (amended): with colorize off and no header override, every emitted
line has the shape `[` + level label + `] ` + date + ` (` + file + `:` +
line + `): ` + message + newline in both variants; the level labels are the
fixed-width 6-character padded display texts, one distinct label per named
level, in the later handle-based variant, while the earlier `golog.go`
variant pads its labels to 5 characters. -/
theorem C6_default_line_shape :
    (∀ (m dl level : golog2.Level) (msg date file : String) (line : Nat),
      level ≥ m →
      golog2.emit ⟨m, dl, false, ""⟩ level msg ⟨date, some (file, line)⟩ =
        ["[" ++ golog2.levelString level ++ "] " ++ date ++ " (" ++
          (file ++ ":" ++ toString line) ++ "): " ++ msg ++ "\n"]) ∧
    ((golog2.levelString golog2.LTrace).length = 6 ∧
     (golog2.levelString golog2.LDebug).length = 6 ∧
     (golog2.levelString golog2.LInfo).length = 6 ∧
     (golog2.levelString golog2.LNotice).length = 6 ∧
     (golog2.levelString golog2.LWarning).length = 6 ∧
     (golog2.levelString golog2.LError).length = 6 ∧
     (golog2.levelString golog2.LPanic).length = 6) ∧
    (([golog2.LTrace, golog2.LDebug, golog2.LInfo, golog2.LNotice, golog2.LWarning,
       golog2.LError, golog2.LPanic].map golog2.levelString).Nodup) ∧
    (∀ (m dl level : golog1.Level) (msg date file : String) (line : Nat),
      level ≥ m →
      golog1.emit ⟨m, dl, false, ""⟩ level msg ⟨date, some (file, line)⟩ =
        ["[" ++ golog1.levelString level ++ "] " ++ date ++ " (" ++
          (file ++ ":" ++ toString line) ++ "): " ++ msg ++ "\n"]) ∧
    ((golog1.levelString golog1.LTrace).length = 5 ∧
     (golog1.levelString golog1.LDebug).length = 5 ∧
     (golog1.levelString golog1.LInfo).length = 5 ∧
     (golog1.levelString golog1.LWarning).length = 5 ∧
     (golog1.levelString golog1.LError).length = 5 ∧
     (golog1.levelString golog1.LPanic).length = 5) ∧
    (([golog1.LTrace, golog1.LDebug, golog1.LInfo, golog1.LWarning,
       golog1.LError, golog1.LPanic].map golog1.levelString).Nodup) := by
  refine ⟨fun m dl level msg date file line h => ?_, by decide, by decide,
    fun m dl level msg date file line h => ?_, by decide, by decide⟩
  · simp [golog2.emit, golog2.write, golog2.getFormattedText, golog2.getHeader,
      golog2.getCaller, h]
  · simp [golog1.emit, golog1.write, golog1.getFormattedText, golog1.getHeader,
      golog1.getCaller, h]

/-- C6 witness: a concrete Info-level line in the later variant, with its
6-character label. -/
theorem C6_default_line_shape_witness :
    golog2.emit ⟨1, 3, false, ""⟩ 3 "y" ⟨"2024-01-01 00:00:00", some ("b.go", 2)⟩ =
      ["[" ++ golog2.levelString 3 ++ "] " ++ "2024-01-01 00:00:00" ++ " (" ++
        ("b.go" ++ ":" ++ toString 2) ++ "): " ++ "y" ++ "\n"] :=
  C6_default_line_shape.1 1 3 3 "y" "2024-01-01 00:00:00" "b.go" 2 (by decide)

/-- C7 counterexample: in the `golog.go` variant the Trace color is
magenta, not white. -/
theorem C7_counterexample_trace_is_magenta :
    golog1.Color golog1.LTrace = golog.ColorSpec.fgMagenta ∧
    ¬ golog1.Color golog1.LTrace = golog.ColorSpec.fgWhite := by decide

/-- C7 (amended): in the later handle-based variant the mapping is exactly
Trace=white, Debug=blue, Info=green, Notice=magenta, Warning=yellow,
Error=red, Panic=bright-white-on-red; in the earlier `golog.go` variant
Trace maps to magenta (and Notice does not exist), the other entries as
stated; in both variants the caller text is colored cyan whenever colorize
is on, independent of severity. -/
theorem C7_display_color_mapping :
    (golog2.Color golog2.LTrace = golog.ColorSpec.fgWhite ∧
     golog2.Color golog2.LDebug = golog.ColorSpec.fgBlue ∧
     golog2.Color golog2.LInfo = golog.ColorSpec.fgGreen ∧
     golog2.Color golog2.LNotice = golog.ColorSpec.fgMagenta ∧
     golog2.Color golog2.LWarning = golog.ColorSpec.fgYellow ∧
     golog2.Color golog2.LError = golog.ColorSpec.fgRed ∧
     golog2.Color golog2.LPanic = golog.ColorSpec.fgHiWhiteBgRed) ∧
    (∀ (m dl : golog2.Level) (uh date file : String) (line : Nat),
      golog2.getCaller ⟨m, dl, true, uh⟩ ⟨date, some (file, line)⟩ =
        golog.applyColor .fgCyan (file ++ ":" ++ toString line)) ∧
    (∀ (m dl : golog1.Level) (uh date file : String) (line : Nat),
      golog1.getCaller ⟨m, dl, true, uh⟩ ⟨date, some (file, line)⟩ =
        golog.applyColor .fgCyan (file ++ ":" ++ toString line)) ∧
    (golog1.Color golog1.LTrace = golog.ColorSpec.fgMagenta ∧
     golog1.Color golog1.LDebug = golog.ColorSpec.fgBlue ∧
     golog1.Color golog1.LInfo = golog.ColorSpec.fgGreen ∧
     golog1.Color golog1.LWarning = golog.ColorSpec.fgYellow ∧
     golog1.Color golog1.LError = golog.ColorSpec.fgRed ∧
     golog1.Color golog1.LPanic = golog.ColorSpec.fgHiWhiteBgRed) :=
  ⟨by decide, fun _ _ _ _ _ _ => rfl, fun _ _ _ _ _ _ => rfl, by decide⟩

/-- C8: every numeric level value distinct from all named constants maps
to the label "unknown" and the white fallback color, in both variants; and
the zero sentinel is strictly below every named level. -/
theorem C8_unrecognized_level_fallback :
    (∀ n : golog1.Level, n ≠ golog1.LTrace → n ≠ golog1.LDebug → n ≠ golog1.LInfo →
      n ≠ golog1.LWarning → n ≠ golog1.LError → n ≠ golog1.LPanic →
      golog1.levelString n = "unknown" ∧ golog1.Color n = golog.ColorSpec.fgWhite) ∧
    (∀ n : golog2.Level, n ≠ golog2.LTrace → n ≠ golog2.LDebug → n ≠ golog2.LInfo →
      n ≠ golog2.LNotice → n ≠ golog2.LWarning → n ≠ golog2.LError → n ≠ golog2.LPanic →
      golog2.levelString n = "unknown" ∧ golog2.Color n = golog.ColorSpec.fgWhite) ∧
    (golog1.unknown < golog1.LTrace ∧ golog1.unknown < golog1.LDebug ∧
     golog1.unknown < golog1.LInfo ∧ golog1.unknown < golog1.LWarning ∧
     golog1.unknown < golog1.LError ∧ golog1.unknown < golog1.LPanic) ∧
    (golog2.unknown < golog2.LTrace ∧ golog2.unknown < golog2.LDebug ∧
     golog2.unknown < golog2.LInfo ∧ golog2.unknown < golog2.LNotice ∧
     golog2.unknown < golog2.LWarning ∧ golog2.unknown < golog2.LError ∧
     golog2.unknown < golog2.LPanic) := by
  refine ⟨fun n h1 h2 h3 h4 h5 h6 => ?_, fun n h1 h2 h3 h4 h5 h6 h7 => ?_,
    by decide, by decide⟩
  · exact ⟨by simp [golog1.levelString, h1, h2, h3, h4, h5, h6],
      by simp [golog1.Color, h1, h2, h3, h4, h5, h6]⟩
  · exact ⟨by simp [golog2.levelString, h1, h2, h3, h4, h5, h6, h7],
      by simp [golog2.Color, h1, h2, h3, h4, h5, h6, h7]⟩

/-- C8 witness: the unnamed value 42 falls back to "unknown" and white. -/
theorem C8_unrecognized_level_fallback_witness :
    golog1.levelString 42 = "unknown" ∧ golog1.Color 42 = golog.ColorSpec.fgWhite :=
  C8_unrecognized_level_fallback.1 42 (by decide) (by decide) (by decide)
    (by decide) (by decide) (by decide)
